import Mathlib

/-!
Shallow embedding of `process_icons.py`, a one-shot script that loads one
source image from a hardcoded path, ensures two destination directories
exist, and writes three resized PNG variants (16, 48, 128 pixels square,
Lanczos resampling) of the source image into both directories, catching any
failure of the load/resize/save phase and printing it as a single line.

The filesystem is modelled explicitly: a list of existing directory paths, an
association list from file paths to file contents, and two lists of paths on
which `os.makedirs` respectively `Image.save` raise a permission error.
Images are modelled as a structure carrying mode, width, height and abstract
pixel content; the pixel content produced by resampling is a parameter
(`Resampler`) of the whole semantics, since only the declared dimensions and
the chosen filter are observable in the claims.
-/

/-- True on the two path separator characters recognised on Windows. -/
def isSep (c : Char) : Bool := c == '\\' || c == '/'

/-- Splits a character list at path separators into its components. -/
def splitChars : List Char → List (List Char)
  | [] => [[]]
  | c :: rest =>
    if isSep c then [] :: splitChars rest
    else
      match splitChars rest with
      | [] => [[c]]
      | g :: gs => (c :: g) :: gs

/-- Joins path components with the Windows separator. -/
def joinChars : List (List Char) → List Char
  | [] => []
  | [a] => a
  | a :: rest => a ++ '\\' :: joinChars rest

/-- Directory part of a path: everything before its last component. -/
def dirname (p : String) : String := String.mk (joinChars (splitChars p.data).dropLast)

/-- Auxiliary for `ancestors`: successive joins of the remaining components. -/
def ancestorsAux : List Char → List (List Char) → List String
  | cur, [] => [String.mk cur]
  | cur, part :: rest => String.mk cur :: ancestorsAux (cur ++ '\\' :: part) rest

/-- All prefixes of a path from its first component down to the path itself;
these are the directories `os.makedirs` creates recursively. -/
def ancestors (p : String) : List String :=
  match splitChars p.data with
  | [] => []
  | part :: rest => ancestorsAux part rest

/-- Resampling filters of `PIL.Image.Resampling`; the script uses `LANCZOS`. -/
inductive Resampling where
  | lanczos
  | nearest
  | bilinear
  | bicubic
deriving DecidableEq

/-- An in-memory decoded raster image: mode, pixel dimensions, and abstract
pixel content. -/
structure Img where
  mode : String
  width : Nat
  height : Nat
  content : List Nat
deriving DecidableEq

/-- The content a resampling implementation produces for a given source image,
target dimensions and filter. The semantics is parametric in it: PIL's actual
Lanczos kernel is opaque, but it is a deterministic function of these inputs. -/
def Resampler : Type := Img → Nat → Nat → Resampling → List Nat

/-- The `img.resize((w, h), filter)` call: a new image with the requested
dimensions, same mode, and resampled content. -/
def resizeImg (r : Resampler) (img : Img) (w h : Nat) (f : Resampling) : Img :=
  { mode := img.mode, width := w, height := h, content := r img w h f }

/-- Contents a file can hold: a decodable image stored in some format, or a
blob that no image decoder accepts (covering corrupt or non-image files). -/
inductive FileData where
  | image (fmt : String) (img : Img)
  | blob (data : List Nat)
deriving DecidableEq

/-- The filesystem state: existing directories, files, and the paths on which
directory creation respectively file writes raise a permission error. -/
structure FS where
  dirs : List String
  files : List (String × FileData)
  mkdirDenied : List String
  writeDenied : List String
deriving DecidableEq

/-- Membership test for a path in a list of paths. -/
def containsStr : List String → String → Bool
  | [], _ => false
  | d :: rest, p => d == p || containsStr rest p

/-- True when some file of the association list sits at the path. -/
def hasFileAt : List (String × FileData) → String → Bool
  | [], _ => false
  | kv :: rest, p => kv.1 == p || hasFileAt rest p

/-- Looks a path up in a file association list. -/
def lookupFile : List (String × FileData) → String → Option FileData
  | [], _ => none
  | (q, v) :: rest, p => if q == p then some v else lookupFile rest p

/-- Stores data at a path, replacing in place if present, appending if not. -/
def setFile : List (String × FileData) → String → FileData → List (String × FileData)
  | [], p, v => [(p, v)]
  | (q, w) :: rest, p, v => if q == p then (p, v) :: rest else (q, w) :: setFile rest p v

/-- Inserts a directory path if it is not already present. -/
def insertDir (dirs : List String) (d : String) : List String :=
  if containsStr dirs d then dirs else dirs ++ [d]

/-- Adds every path of the second list to the first, in order. -/
def addDirs : List String → List String → List String
  | dirs, [] => dirs
  | dirs, d :: rest => addDirs (insertDir dirs d) rest

/-- The `os.path.exists` test: true if a directory or a file is at the path. -/
def pathExists (fs : FS) (p : String) : Bool :=
  containsStr fs.dirs p || hasFileAt fs.files p

/-- The `os.makedirs(p)` call: raises on a denied path, raises `FileExistsError`
if the directory already exists, otherwise creates the directory and all its
missing ancestors. -/
def makedirs (fs : FS) (p : String) : Except String FS :=
  if containsStr fs.mkdirDenied p then
    .error ("Permission denied: " ++ p)
  else if containsStr fs.dirs p then
    .error ("FileExistsError: " ++ p)
  else
    .ok { fs with dirs := addDirs fs.dirs (ancestors p) }

/-- The guarded creation `if not os.path.exists(d): os.makedirs(d)`. -/
def ensureDir (fs : FS) (d : String) : Except String FS :=
  if pathExists fs d then .ok fs else makedirs fs d

/-- The `Image.open(p)` call: fails when no file is at the path or when the
file is not a decodable image, otherwise yields the decoded image. -/
def imageOpen (fs : FS) (p : String) : Except String Img :=
  match lookupFile fs.files p with
  | none => .error ("No such file or directory: " ++ p)
  | some (.image _ img) => .ok img
  | some (.blob _) => .error ("cannot identify image file " ++ p)

/-- Output format PIL infers from the save path's extension. -/
def formatFromExt (p : String) : Option String :=
  if ".png".data.isSuffixOf p.data then some "PNG"
  else if ".jpg".data.isSuffixOf p.data then some "JPEG"
  else if ".jpeg".data.isSuffixOf p.data then some "JPEG"
  else if ".bmp".data.isSuffixOf p.data then some "BMP"
  else none

/-- The `img.save(p)` call: fails on a write-denied path, on a missing parent
directory, or on an unrecognised extension; otherwise stores the image at the
path, encoded in the format inferred from the extension, overwriting any
existing file there. -/
def save (fs : FS) (img : Img) (p : String) : Except String FS :=
  if containsStr fs.writeDenied p then
    .error ("Permission denied: " ++ p)
  else if containsStr fs.dirs (dirname p) then
    match formatFromExt p with
    | some fmt => .ok { fs with files := setFile fs.files p (.image fmt img) }
    | none => .error ("unknown file extension: " ++ p)
  else
    .error ("No such file or directory: " ++ p)

/-- The hardcoded source image path of the script. -/
def source_path : String :=
  "C:/Users/Administrator/.gemini/antigravity/brain/a95a8bed-cbac-44a9-a43c-18bee19e65ae/web_scraper_spider_icon_1769348297278.png"

/-- The first destination directory (`src/icons`). -/
def dest_dir : String := "D:\\AI_project\\web-scraper\\src\\icons"

/-- The second destination directory (`dist/icons`). -/
def dist_dir : String := "D:\\AI_project\\web-scraper\\dist\\icons"

/-- The fixed ordered list of target sizes. -/
def sizes : List Nat := [16, 48, 128]

/-- The size-derived output filename `icon{size}.png`. -/
def iconName (size : Nat) : String := "icon" ++ toString size ++ ".png"

/-- The save path under the first destination, `os.path.join(dest_dir, ...)`. -/
def src_save_path (size : Nat) : String := dest_dir ++ "\\" ++ iconName size

/-- The save path under the second destination, `os.path.join(dist_dir, ...)`. -/
def dist_save_path (size : Nat) : String := dist_dir ++ "\\" ++ iconName size

/-- The `for size in sizes` loop body, iterated over the remaining sizes:
resize to `size` x `size` with Lanczos, save under `dest_dir` and print, save
under `dist_dir` and print. Returns the filesystem reached, the printed lines,
and the exception that aborted the loop, if any. -/
def resizeLoop (r : Resampler) (img : Img) : FS → List Nat → FS × List String × Option String
  | fs, [] => (fs, [], none)
  | fs, size :: rest =>
    match save fs (resizeImg r img size size .lanczos) (src_save_path size) with
    | .error e => (fs, [], some e)
    | .ok fs1 =>
      match save fs1 (resizeImg r img size size .lanczos) (dist_save_path size) with
      | .error e => (fs1, ["Saved " ++ src_save_path size], some e)
      | .ok fs2 =>
        match resizeLoop r img fs2 rest with
        | (fs3, outs, err) =>
          (fs3, ("Saved " ++ src_save_path size) :: ("Saved " ++ dist_save_path size) :: outs, err)

/-- The body of the `try` block: open the source image, then run the resize
loop; a failed open aborts before any iteration. -/
def tryBody (r : Resampler) (fs : FS) : FS × List String × Option String :=
  match imageOpen fs source_path with
  | .error e => (fs, [], some e)
  | .ok img => resizeLoop r img fs sizes

/-- The directory-preparation step preceding the `try` block: the two guarded
`os.makedirs` calls in order. Returns the filesystem reached and the exception
if one of the calls raised (the script has no handler around them). -/
def prepDirs (fs : FS) : FS × Option String :=
  match ensureDir fs dest_dir with
  | .error e => (fs, some e)
  | .ok fs1 =>
    match ensureDir fs1 dist_dir with
    | .error e => (fs1, some e)
    | .ok fs2 => (fs2, none)

/-- Result of one run of the script: final filesystem, lines printed to
standard output, and the uncaught exception that terminated the process
abnormally, if any. -/
structure RunResult where
  fs : FS
  output : List String
  uncaught : Option String
deriving DecidableEq

/-- The whole script: prepare the directories (unprotected), then run the
`try` block; an exception of the body is caught and printed as one
`Error processing image: ...` line, an exception of the preparation step
propagates uncaught. -/
def runScript (r : Resampler) (fs : FS) : RunResult :=
  match prepDirs fs with
  | (fsp, some e) => { fs := fsp, output := [], uncaught := some e }
  | (fsp, none) =>
    match tryBody r fsp with
    | (fsb, outs, none) => { fs := fsb, output := outs, uncaught := none }
    | (fsb, outs, some e) =>
      { fs := fsb, output := outs ++ ["Error processing image: " ++ e], uncaught := none }

/-- A clean initial filesystem: only the source image is present, stored in
an arbitrary decodable format, and nothing is permission-denied. -/
def initFS (fmt : String) (img : Img) : FS :=
  { dirs := []
    files := [(source_path, .image fmt img)]
    mkdirDenied := []
    writeDenied := [] }

/-- The files of a filesystem that sit directly in a given directory. -/
def filesIn (fs : FS) (d : String) : List (String × FileData) :=
  fs.files.filter (fun kv => dirname kv.1 == d)

/-- A line reporting a successful save. -/
def isSavedLine (s : String) : Bool := "Saved ".data.isPrefixOf s.data

/-- A line reporting the caught exception. -/
def isErrorLine (s : String) : Bool := "Error processing image: ".data.isPrefixOf s.data

/-- A concrete resampler for witnesses: constant blank content. -/
def r0 : Resampler := fun _ _ _ _ => []

/-- A concrete 512 x 512 source image for witnesses. -/
def img0 : Img := { mode := "RGB", width := 512, height := 512, content := [7] }

/-- An initial filesystem in which all six output paths are already occupied
by arbitrary stale contents, to observe overwriting. -/
def staleFS (fmt : String) (img : Img) (v1 v2 v3 v4 v5 v6 : FileData) : FS :=
  { dirs := []
    files := [(source_path, .image fmt img),
              (src_save_path 16, v1), (dist_save_path 16, v2),
              (src_save_path 48, v3), (dist_save_path 48, v4),
              (src_save_path 128, v5), (dist_save_path 128, v6)]
    mkdirDenied := []
    writeDenied := [] }

/-- A filesystem on which creating the first destination directory is denied:
the source image is present but `os.makedirs(dest_dir)` raises. -/
def fsDenied : FS :=
  { dirs := []
    files := [(source_path, .image "PNG" img0)]
    mkdirDenied := [dest_dir]
    writeDenied := [] }

/-- An entirely empty filesystem: in particular, no file is at the source
path. -/
def fsEmpty : FS := { dirs := [], files := [], mkdirDenied := [], writeDenied := [] }

/-- A filesystem on which both destination directories exist, the source image
is present, and the write of `dist/icons/icon48.png` is denied, so the second
loop iteration fails halfway through. -/
def fsWriteDenied : FS :=
  { dirs := [dest_dir, dist_dir]
    files := [(source_path, .image "PNG" img0)]
    mkdirDenied := []
    writeDenied := [dist_save_path 48] }

/-! Cached evaluations of the concrete paths, used to keep later proofs from
re-running character-level path computations. -/

theorem src_save_path_16 : src_save_path 16 = "D:\\AI_project\\web-scraper\\src\\icons\\icon16.png" := rfl

theorem src_save_path_48 : src_save_path 48 = "D:\\AI_project\\web-scraper\\src\\icons\\icon48.png" := rfl

theorem src_save_path_128 : src_save_path 128 = "D:\\AI_project\\web-scraper\\src\\icons\\icon128.png" := rfl

theorem dist_save_path_16 : dist_save_path 16 = "D:\\AI_project\\web-scraper\\dist\\icons\\icon16.png" := rfl

theorem dist_save_path_48 : dist_save_path 48 = "D:\\AI_project\\web-scraper\\dist\\icons\\icon48.png" := rfl

theorem dist_save_path_128 : dist_save_path 128 = "D:\\AI_project\\web-scraper\\dist\\icons\\icon128.png" := rfl

theorem dirname_src16 : dirname "D:\\AI_project\\web-scraper\\src\\icons\\icon16.png" = dest_dir := by decide

theorem dirname_src48 : dirname "D:\\AI_project\\web-scraper\\src\\icons\\icon48.png" = dest_dir := by decide

theorem dirname_src128 : dirname "D:\\AI_project\\web-scraper\\src\\icons\\icon128.png" = dest_dir := by decide

theorem dirname_dist16 : dirname "D:\\AI_project\\web-scraper\\dist\\icons\\icon16.png" = dist_dir := by decide

theorem dirname_dist48 : dirname "D:\\AI_project\\web-scraper\\dist\\icons\\icon48.png" = dist_dir := by decide

theorem dirname_dist128 : dirname "D:\\AI_project\\web-scraper\\dist\\icons\\icon128.png" = dist_dir := by decide

theorem dirname_source : dirname
    "C:/Users/Administrator/.gemini/antigravity/brain/a95a8bed-cbac-44a9-a43c-18bee19e65ae/web_scraper_spider_icon_1769348297278.png" =
    "C:\\Users\\Administrator\\.gemini\\antigravity\\brain\\a95a8bed-cbac-44a9-a43c-18bee19e65ae" := by decide

theorem fmt_src16 : formatFromExt "D:\\AI_project\\web-scraper\\src\\icons\\icon16.png" = some "PNG" := by decide

theorem fmt_src48 : formatFromExt "D:\\AI_project\\web-scraper\\src\\icons\\icon48.png" = some "PNG" := by decide

theorem fmt_src128 : formatFromExt "D:\\AI_project\\web-scraper\\src\\icons\\icon128.png" = some "PNG" := by decide

theorem fmt_dist16 : formatFromExt "D:\\AI_project\\web-scraper\\dist\\icons\\icon16.png" = some "PNG" := by decide

theorem fmt_dist48 : formatFromExt "D:\\AI_project\\web-scraper\\dist\\icons\\icon48.png" = some "PNG" := by decide

theorem fmt_dist128 : formatFromExt "D:\\AI_project\\web-scraper\\dist\\icons\\icon128.png" = some "PNG" := by decide

theorem ancestors_dest : ancestors dest_dir =
  ["D:", "D:\\AI_project", "D:\\AI_project\\web-scraper",
   "D:\\AI_project\\web-scraper\\src", "D:\\AI_project\\web-scraper\\src\\icons"] := by decide

theorem ancestors_dist : ancestors dist_dir =
  ["D:", "D:\\AI_project", "D:\\AI_project\\web-scraper",
   "D:\\AI_project\\web-scraper\\dist", "D:\\AI_project\\web-scraper\\dist\\icons"] := by decide

/-! Basic lemmas about the list-level filesystem primitives. -/

theorem containsStr_iff (l : List String) (p : String) : containsStr l p = true ↔ p ∈ l := by
  induction l with
  | nil => simp [containsStr]
  | cons d rest ih =>
    simp only [containsStr, Bool.or_eq_true, beq_iff_eq, ih, List.mem_cons]
    constructor
    · rintro (h | h)
      · exact Or.inl h.symm
      · exact Or.inr h
    · rintro (h | h)
      · exact Or.inl h.symm
      · exact Or.inr h

theorem lookupFile_setFile_self (files : List (String × FileData)) (p : String) (v : FileData) :
    lookupFile (setFile files p v) p = some v := by
  induction files with
  | nil => simp [setFile, lookupFile]
  | cons kv rest ih =>
    obtain ⟨q, w⟩ := kv
    by_cases h : q = p
    · subst h
      simp [setFile, lookupFile]
    · have hb : (q == p) = false := by simp [h]
      simp [setFile, lookupFile, hb, ih]

theorem lookupFile_setFile_ne (files : List (String × FileData)) (p q : String) (v : FileData)
    (h : q ≠ p) : lookupFile (setFile files p v) q = lookupFile files q := by
  have hpq : ¬p = q := fun hh => h hh.symm
  have hqp : (p == q) = false := by simp [hpq]
  induction files with
  | nil => simp [setFile, lookupFile, hqp]
  | cons kv rest ih =>
    obtain ⟨a, w⟩ := kv
    by_cases ha : a = p
    · subst ha
      simp [setFile, lookupFile, hqp]
    · have hb : (a == p) = false := by simp [ha]
      simp [setFile, lookupFile, hb, ih]

theorem mem_insertDir (dirs : List String) (d p : String) :
    p ∈ insertDir dirs d ↔ p ∈ dirs ∨ p = d := by
  by_cases h : containsStr dirs d = true
  · have hd : d ∈ dirs := (containsStr_iff dirs d).mp h
    simp only [insertDir, h, if_true]
    constructor
    · intro hp
      exact Or.inl hp
    · intro hp
      rcases hp with hp | hp
      · exact hp
      · exact hp ▸ hd
  · simp [insertDir, h]

theorem mem_addDirs (l : List String) (dirs : List String) (p : String) :
    p ∈ addDirs dirs l ↔ p ∈ dirs ∨ p ∈ l := by
  induction l generalizing dirs with
  | nil => simp [addDirs]
  | cons d rest ih =>
    simp only [addDirs, ih, mem_insertDir, List.mem_cons]
    tauto

/-! Lemmas about the shapes of printed lines, save paths and formats. -/

theorem isSavedLine_saved (p : String) : isSavedLine ("Saved " ++ p) = true := by
  simp [isSavedLine]

theorem isErrorLine_err (e : String) : isErrorLine ("Error processing image: " ++ e) = true := by
  simp [isErrorLine]

theorem savedLine_not_errorLine (l : String) (h : isSavedLine l = true) : isErrorLine l = false := by
  simp only [isSavedLine, List.isPrefixOf_iff_prefix] at h
  simp only [isErrorLine, List.isPrefixOf_iff_prefix]
  obtain ⟨t1, ht1⟩ := h
  rw [Bool.eq_false_iff]
  intro hc
  rw [List.isPrefixOf_iff_prefix] at hc
  obtain ⟨t2, ht2⟩ := hc
  rw [← ht1] at ht2
  simp at ht2

theorem dest_data_length : dest_dir.data.length = 35 := by decide

theorem dist_data_length : dist_dir.data.length = 36 := by decide

theorem src_ne_dist (s : Nat) : src_save_path s ≠ dist_save_path s := by
  intro h
  have hd := congrArg (fun t => t.data.length) h
  simp only [src_save_path, dist_save_path, String.data_append, List.length_append,
    dest_data_length, dist_data_length] at hd
  omega

theorem formatFromExt_append_png (a : String) : formatFromExt (a ++ ".png") = some "PNG" := by
  simp [formatFromExt]

theorem src_save_path_eq (s : Nat) :
    src_save_path s = (dest_dir ++ "\\" ++ ("icon" ++ toString s)) ++ ".png" := by
  apply String.ext
  simp [src_save_path, iconName]

theorem dist_save_path_eq (s : Nat) :
    dist_save_path s = (dist_dir ++ "\\" ++ ("icon" ++ toString s)) ++ ".png" := by
  apply String.ext
  simp [dist_save_path, iconName]

theorem formatFromExt_src (s : Nat) : formatFromExt (src_save_path s) = some "PNG" := by
  rw [src_save_path_eq, formatFromExt_append_png]

theorem formatFromExt_dist (s : Nat) : formatFromExt (dist_save_path s) = some "PNG" := by
  rw [dist_save_path_eq, formatFromExt_append_png]

/-! Lemmas characterising `save` and the resize loop. -/

theorem save_ok_spec (fs : FS) (i : Img) (q : String) (fs2 : FS)
    (h : save fs i q = Except.ok fs2) :
    ∃ fmt, formatFromExt q = some fmt ∧
      fs2.files = setFile fs.files q (FileData.image fmt i) ∧
      fs2.dirs = fs.dirs ∧ fs2.mkdirDenied = fs.mkdirDenied ∧
      fs2.writeDenied = fs.writeDenied := by
  unfold save at h
  split at h
  · exact absurd h (by simp)
  · split at h
    · split at h
      · rename_i fmt hfmt
        have hfs := Except.ok.inj h
        exact ⟨fmt, hfmt, by rw [← hfs], by rw [← hfs], by rw [← hfs], by rw [← hfs]⟩
      · exact absurd h (by simp)
    · exact absurd h (by simp)

theorem resizeLoop_state (r : Resampler) (img : Img) (l : List Nat) : ∀ fs : FS,
    (resizeLoop r img fs l).1.dirs = fs.dirs ∧
    (resizeLoop r img fs l).1.mkdirDenied = fs.mkdirDenied ∧
    (resizeLoop r img fs l).1.writeDenied = fs.writeDenied := by
  induction l with
  | nil => intro fs; simp [resizeLoop]
  | cons s rest ih =>
    intro fs
    cases h1 : save fs (resizeImg r img s s Resampling.lanczos) (src_save_path s) with
    | error e => simp [resizeLoop, h1]
    | ok fs1 =>
      obtain ⟨f1, _, _, hd1, hm1, hw1⟩ := save_ok_spec _ _ _ _ h1
      cases h2 : save fs1 (resizeImg r img s s Resampling.lanczos) (dist_save_path s) with
      | error e => simp [resizeLoop, h1, h2, hd1, hm1, hw1]
      | ok fs2 =>
        obtain ⟨f2, _, _, hd2, hm2, hw2⟩ := save_ok_spec _ _ _ _ h2
        have hih := ih fs2
        simp only [resizeLoop, h1, h2]
        exact ⟨by rw [hih.1, hd2, hd1], by rw [hih.2.1, hm2, hm1], by rw [hih.2.2, hw2, hw1]⟩

theorem resizeLoop_saves (r : Resampler) (img : Img) (l : List Nat) : ∀ fs : FS,
    ∀ line ∈ (resizeLoop r img fs l).2.1, isSavedLine line = true := by
  induction l with
  | nil => intro fs line hl; simp [resizeLoop] at hl
  | cons s rest ih =>
    intro fs line hl
    cases h1 : save fs (resizeImg r img s s Resampling.lanczos) (src_save_path s) with
    | error e => simp [resizeLoop, h1] at hl
    | ok fs1 =>
      cases h2 : save fs1 (resizeImg r img s s Resampling.lanczos) (dist_save_path s) with
      | error e =>
        simp only [resizeLoop, h1, h2, List.mem_singleton] at hl
        rw [hl]
        exact isSavedLine_saved _
      | ok fs2 =>
        simp only [resizeLoop, h1, h2, List.mem_cons] at hl
        rcases hl with hl | hl | hl
        · rw [hl]; exact isSavedLine_saved _
        · rw [hl]; exact isSavedLine_saved _
        · exact ih fs2 line hl

theorem resizeLoop_append (r : Resampler) (img : Img) (l1 l2 : List Nat) : ∀ fs : FS,
    resizeLoop r img fs (l1 ++ l2) =
      (if (resizeLoop r img fs l1).2.2.isSome then resizeLoop r img fs l1
       else ((resizeLoop r img (resizeLoop r img fs l1).1 l2).1,
             (resizeLoop r img fs l1).2.1 ++ (resizeLoop r img (resizeLoop r img fs l1).1 l2).2.1,
             (resizeLoop r img (resizeLoop r img fs l1).1 l2).2.2)) := by
  induction l1 with
  | nil => intro fs; simp [resizeLoop]
  | cons s rest ih =>
    intro fs
    cases h1 : save fs (resizeImg r img s s Resampling.lanczos) (src_save_path s) with
    | error e => simp [resizeLoop, h1]
    | ok fs1 =>
      cases h2 : save fs1 (resizeImg r img s s Resampling.lanczos) (dist_save_path s) with
      | error e => simp [resizeLoop, h1, h2]
      | ok fs2 =>
        simp only [List.cons_append, resizeLoop, h1, h2, List.append_eq]
        rw [ih fs2]
        by_cases he : (resizeLoop r img fs2 rest).2.2.isSome = true
        · simp [he]
        · simp [he]

theorem resizeLoop_lookup_ne (r : Resampler) (img : Img) (l : List Nat) : ∀ (fs : FS) (p : String),
    (∀ s ∈ l, p ≠ src_save_path s ∧ p ≠ dist_save_path s) →
    lookupFile (resizeLoop r img fs l).1.files p = lookupFile fs.files p := by
  induction l with
  | nil => intro fs p _; simp [resizeLoop]
  | cons s rest ih =>
    intro fs p hp
    have hs := hp s (List.mem_cons_self s rest)
    have hrest : ∀ t ∈ rest, p ≠ src_save_path t ∧ p ≠ dist_save_path t :=
      fun t ht => hp t (List.mem_cons_of_mem s ht)
    cases h1 : save fs (resizeImg r img s s Resampling.lanczos) (src_save_path s) with
    | error e => simp [resizeLoop, h1]
    | ok fs1 =>
      obtain ⟨f1, _, hf1, _, _, _⟩ := save_ok_spec _ _ _ _ h1
      cases h2 : save fs1 (resizeImg r img s s Resampling.lanczos) (dist_save_path s) with
      | error e =>
        simp only [resizeLoop, h1, h2]
        rw [hf1, lookupFile_setFile_ne _ _ _ _ hs.1]
      | ok fs2 =>
        obtain ⟨f2, _, hf2, _, _, _⟩ := save_ok_spec _ _ _ _ h2
        simp only [resizeLoop, h1, h2]
        rw [ih fs2 p hrest, hf2, lookupFile_setFile_ne _ _ _ _ hs.2,
            hf1, lookupFile_setFile_ne _ _ _ _ hs.1]

theorem resizeLoop_single_ok (r : Resampler) (img : Img) (fs : FS) (s : Nat)
    (h : (resizeLoop r img fs [s]).2.2 = none) :
    lookupFile (resizeLoop r img fs [s]).1.files (src_save_path s) =
      some (FileData.image "PNG" (resizeImg r img s s Resampling.lanczos)) ∧
    lookupFile (resizeLoop r img fs [s]).1.files (dist_save_path s) =
      some (FileData.image "PNG" (resizeImg r img s s Resampling.lanczos)) := by
  cases h1 : save fs (resizeImg r img s s Resampling.lanczos) (src_save_path s) with
  | error e => simp [resizeLoop, h1] at h
  | ok fs1 =>
    cases h2 : save fs1 (resizeImg r img s s Resampling.lanczos) (dist_save_path s) with
    | error e => simp [resizeLoop, h1, h2] at h
    | ok fs2 =>
      obtain ⟨f1, hfmt1, hf1, _, _, _⟩ := save_ok_spec _ _ _ _ h1
      obtain ⟨f2, hfmt2, hf2, _, _, _⟩ := save_ok_spec _ _ _ _ h2
      rw [formatFromExt_src s] at hfmt1
      rw [formatFromExt_dist s] at hfmt2
      have hf1' : f1 = "PNG" := (Option.some.inj hfmt1).symm
      have hf2' : f2 = "PNG" := (Option.some.inj hfmt2).symm
      subst hf1'
      subst hf2'
      simp only [resizeLoop, h1, h2]
      constructor
      · rw [hf2, lookupFile_setFile_ne _ _ _ _ (src_ne_dist s), hf1, lookupFile_setFile_self]
      · rw [hf2, lookupFile_setFile_self]

/-! Lemmas characterising the directory-preparation step and the whole run. -/

theorem dest_mem_anc : dest_dir ∈ ancestors dest_dir := by decide

theorem dist_mem_anc : dist_dir ∈ ancestors dist_dir := by decide

theorem dist_not_anc_dest : dist_dir ∉ ancestors dest_dir := by decide

theorem ensureDir_ok (fs : FS) (d : String) (h : containsStr fs.mkdirDenied d = false) :
    ensureDir fs d = Except.ok (if pathExists fs d then fs
      else { fs with dirs := addDirs fs.dirs (ancestors d) }) := by
  unfold ensureDir makedirs
  by_cases hp : pathExists fs d = true
  · rw [if_pos hp, if_pos hp]
  · have hp' : pathExists fs d = false := by
      cases hq : pathExists fs d
      · rfl
      · exact absurd hq hp
    have hdirs : containsStr fs.dirs d = false := by
      have := hp'
      rw [pathExists, Bool.or_eq_false_iff] at this
      exact this.1
    rw [if_neg hp, if_neg hp]
    rw [if_neg (by simp [h]), if_neg (by simp [hdirs])]

theorem prepDirs_spec (fs : FS)
    (h1 : containsStr fs.mkdirDenied dest_dir = false)
    (h2 : containsStr fs.mkdirDenied dist_dir = false) :
    (prepDirs fs).2 = none ∧
    (prepDirs fs).1.files = fs.files ∧
    (prepDirs fs).1.mkdirDenied = fs.mkdirDenied ∧
    (prepDirs fs).1.writeDenied = fs.writeDenied ∧
    (∀ x ∈ fs.dirs, x ∈ (prepDirs fs).1.dirs) ∧
    (hasFileAt fs.files dest_dir = false → dest_dir ∈ (prepDirs fs).1.dirs) ∧
    (hasFileAt fs.files dist_dir = false → dist_dir ∈ (prepDirs fs).1.dirs) ∧
    (dest_dir ∉ fs.dirs → hasFileAt fs.files dest_dir = false →
      ∀ a ∈ ancestors dest_dir, a ∈ (prepDirs fs).1.dirs) ∧
    (dist_dir ∉ fs.dirs → hasFileAt fs.files dist_dir = false →
      ∀ a ∈ ancestors dist_dir, a ∈ (prepDirs fs).1.dirs) := by
  have e1 := ensureDir_ok fs dest_dir h1
  by_cases hp1 : pathExists fs dest_dir = true
  · rw [if_pos hp1] at e1
    have e2 := ensureDir_ok fs dist_dir h2
    by_cases hp2 : pathExists fs dist_dir = true
    · rw [if_pos hp2] at e2
      simp only [prepDirs, e1, e2]
      refine ⟨trivial, trivial, trivial, trivial, fun x hx => hx, ?_, ?_, ?_, ?_⟩
      · intro hnf
        rw [pathExists, hnf, Bool.or_false] at hp1
        exact (containsStr_iff _ _).mp hp1
      · intro hnf
        rw [pathExists, hnf, Bool.or_false] at hp2
        exact (containsStr_iff _ _).mp hp2
      · intro hmem hnf
        rw [pathExists, hnf, Bool.or_false] at hp1
        exact absurd ((containsStr_iff _ _).mp hp1) hmem
      · intro hmem hnf
        rw [pathExists, hnf, Bool.or_false] at hp2
        exact absurd ((containsStr_iff _ _).mp hp2) hmem
    · rw [if_neg hp2] at e2
      simp only [prepDirs, e1, e2]
      refine ⟨trivial, trivial, trivial, trivial, ?_, ?_, ?_, ?_, ?_⟩
      · intro x hx
        exact (mem_addDirs _ _ _).mpr (Or.inl hx)
      · intro hnf
        rw [pathExists, hnf, Bool.or_false] at hp1
        exact (mem_addDirs _ _ _).mpr (Or.inl ((containsStr_iff _ _).mp hp1))
      · intro _
        exact (mem_addDirs _ _ _).mpr (Or.inr dist_mem_anc)
      · intro hmem hnf
        rw [pathExists, hnf, Bool.or_false] at hp1
        exact absurd ((containsStr_iff _ _).mp hp1) hmem
      · intro _ _ a ha
        exact (mem_addDirs _ _ _).mpr (Or.inr ha)
  · rw [if_neg hp1] at e1
    have hm1 : ({ fs with dirs := addDirs fs.dirs (ancestors dest_dir) } : FS).mkdirDenied =
        fs.mkdirDenied := rfl
    have e2 := ensureDir_ok { fs with dirs := addDirs fs.dirs (ancestors dest_dir) } dist_dir
      (by rw [hm1]; exact h2)
    by_cases hp2 : pathExists { fs with dirs := addDirs fs.dirs (ancestors dest_dir) } dist_dir = true
    · rw [if_pos hp2] at e2
      simp only [prepDirs, e1, e2]
      refine ⟨trivial, trivial, trivial, trivial, ?_, ?_, ?_, ?_, ?_⟩
      · intro x hx
        exact (mem_addDirs _ _ _).mpr (Or.inl hx)
      · intro _
        exact (mem_addDirs _ _ _).mpr (Or.inr dest_mem_anc)
      · intro hnf
        rw [pathExists, hnf, Bool.or_false] at hp2
        exact (containsStr_iff _ _).mp hp2
      · intro _ _ a ha
        exact (mem_addDirs _ _ _).mpr (Or.inr ha)
      · intro hmem hnf
        rw [pathExists, hnf, Bool.or_false] at hp2
        have := (containsStr_iff _ _).mp hp2
        rcases (mem_addDirs _ _ _).mp this with hin | hin
        · exact absurd hin hmem
        · exact absurd hin dist_not_anc_dest
    · rw [if_neg hp2] at e2
      simp only [prepDirs, e1, e2]
      refine ⟨trivial, trivial, trivial, trivial, ?_, ?_, ?_, ?_, ?_⟩
      · intro x hx
        exact (mem_addDirs _ _ _).mpr (Or.inl ((mem_addDirs _ _ _).mpr (Or.inl hx)))
      · intro _
        exact (mem_addDirs _ _ _).mpr (Or.inl ((mem_addDirs _ _ _).mpr (Or.inr dest_mem_anc)))
      · intro _
        exact (mem_addDirs _ _ _).mpr (Or.inr dist_mem_anc)
      · intro _ _ a ha
        exact (mem_addDirs _ _ _).mpr (Or.inl ((mem_addDirs _ _ _).mpr (Or.inr ha)))
      · intro _ _ a ha
        exact (mem_addDirs _ _ _).mpr (Or.inr ha)

theorem prepDirs_noop (fs : FS) (hd1 : dest_dir ∈ fs.dirs) (hd2 : dist_dir ∈ fs.dirs) :
    prepDirs fs = (fs, none) := by
  have hp1 : pathExists fs dest_dir = true := by
    rw [pathExists, (containsStr_iff _ _).mpr hd1, Bool.true_or]
  have hp2 : pathExists fs dist_dir = true := by
    rw [pathExists, (containsStr_iff _ _).mpr hd2, Bool.true_or]
  simp only [prepDirs, ensureDir, hp1, hp2, if_true]

theorem tryBody_saves (r : Resampler) (fs : FS) :
    ∀ line ∈ (tryBody r fs).2.1, isSavedLine line = true := by
  intro line hl
  unfold tryBody at hl
  cases ho : imageOpen fs source_path with
  | error e => rw [ho] at hl; simp at hl
  | ok img =>
    rw [ho] at hl
    exact resizeLoop_saves r img sizes fs line hl

theorem tryBody_state (r : Resampler) (fs : FS) :
    (tryBody r fs).1.dirs = fs.dirs := by
  unfold tryBody
  cases ho : imageOpen fs source_path with
  | error e => rfl
  | ok img => exact (resizeLoop_state r img sizes fs).1

theorem runScript_of_prep (r : Resampler) (fs : FS) (h : (prepDirs fs).2 = none) :
    runScript r fs =
      (match tryBody r (prepDirs fs).1 with
       | (fsb, outs, none) => { fs := fsb, output := outs, uncaught := none }
       | (fsb, outs, some e) =>
          { fs := fsb, output := outs ++ ["Error processing image: " ++ e],
            uncaught := none }) := by
  have hp : prepDirs fs = ((prepDirs fs).1, none) := by
    rw [← h]
  conv =>
    lhs
    rw [runScript, hp]

theorem runScript_shape (r : Resampler) (fs : FS)
    (h1 : containsStr fs.mkdirDenied dest_dir = false)
    (h2 : containsStr fs.mkdirDenied dist_dir = false) :
    (runScript r fs).uncaught = none ∧
    ∃ saves, (∀ l ∈ saves, isSavedLine l = true) ∧
      (((tryBody r (prepDirs fs).1).2.2 = none ∧ (runScript r fs).output = saves) ∨
       (∃ e, (tryBody r (prepDirs fs).1).2.2 = some e ∧
          (runScript r fs).output = saves ++ ["Error processing image: " ++ e])) := by
  have hnone := (prepDirs_spec fs h1 h2).1
  rw [runScript_of_prep r fs hnone]
  have hsv := tryBody_saves r (prepDirs fs).1
  rcases ht : tryBody r (prepDirs fs).1 with ⟨fsb, outs, err⟩
  rw [ht] at hsv
  cases err with
  | none => exact ⟨rfl, outs, hsv, Or.inl ⟨rfl, rfl⟩⟩
  | some e => exact ⟨rfl, outs, hsv, Or.inr ⟨e, rfl, rfl⟩⟩

theorem runScript_mkdirFail (r : Resampler) (fs : FS)
    (hpe : pathExists fs dest_dir = false)
    (hmk : containsStr fs.mkdirDenied dest_dir = true) :
    runScript r fs =
      { fs := fs, output := [], uncaught := some ("Permission denied: " ++ dest_dir) } := by
  have he : ensureDir fs dest_dir = Except.error ("Permission denied: " ++ dest_dir) := by
    unfold ensureDir makedirs
    rw [if_neg (by simp [hpe]), if_pos hmk]
  simp only [runScript, prepDirs, he]

/-- Full characterisation of a run from a clean filesystem holding a
decodable source image: the directories created, the seven files present
afterwards, the six printed lines, and the normal exit. -/
theorem runScript_initFS (r : Resampler) (fmt : String) (img : Img) :
    runScript r (initFS fmt img) =
      { fs :=
          { dirs := ["D:", "D:\\AI_project", "D:\\AI_project\\web-scraper",
                     "D:\\AI_project\\web-scraper\\src",
                     "D:\\AI_project\\web-scraper\\src\\icons",
                     "D:\\AI_project\\web-scraper\\dist",
                     "D:\\AI_project\\web-scraper\\dist\\icons"]
            files := [(source_path, .image fmt img),
                      (src_save_path 16, .image "PNG" (resizeImg r img 16 16 .lanczos)),
                      (dist_save_path 16, .image "PNG" (resizeImg r img 16 16 .lanczos)),
                      (src_save_path 48, .image "PNG" (resizeImg r img 48 48 .lanczos)),
                      (dist_save_path 48, .image "PNG" (resizeImg r img 48 48 .lanczos)),
                      (src_save_path 128, .image "PNG" (resizeImg r img 128 128 .lanczos)),
                      (dist_save_path 128, .image "PNG" (resizeImg r img 128 128 .lanczos))]
            mkdirDenied := []
            writeDenied := [] }
        output := ["Saved " ++ src_save_path 16, "Saved " ++ dist_save_path 16,
                   "Saved " ++ src_save_path 48, "Saved " ++ dist_save_path 48,
                   "Saved " ++ src_save_path 128, "Saved " ++ dist_save_path 128]
        uncaught := none } := by
  simp [runScript, prepDirs, ensureDir, pathExists, makedirs, tryBody, imageOpen,
    initFS, lookupFile, resizeLoop, sizes, save, setFile, containsStr, hasFileAt,
    insertDir, addDirs, source_path, dest_dir, dist_dir,
    src_save_path_16, src_save_path_48, src_save_path_128,
    dist_save_path_16, dist_save_path_48, dist_save_path_128,
    dirname_src16, dirname_src48, dirname_src128,
    dirname_dist16, dirname_dist48, dirname_dist128,
    fmt_src16, fmt_src48, fmt_src128, fmt_dist16, fmt_dist48, fmt_dist128,
    ancestors_dest, ancestors_dist]

/-- C1: for every decodable source image (any format, any dimensions), a run
from a clean filesystem succeeds; each destination directory then holds
exactly the three files icon16.png, icon48.png, icon128.png, whose stored
images have exactly the declared dimensions 16 x 16, 48 x 48 and 128 x 128,
and each resized variant appears at exactly the two per-size paths. -/
theorem claim_C1 (r : Resampler) (fmt : String) (img : Img) :
    (runScript r (initFS fmt img)).uncaught = none ∧
    filesIn (runScript r (initFS fmt img)).fs dest_dir =
      [(src_save_path 16, FileData.image "PNG" (resizeImg r img 16 16 Resampling.lanczos)),
       (src_save_path 48, FileData.image "PNG" (resizeImg r img 48 48 Resampling.lanczos)),
       (src_save_path 128, FileData.image "PNG" (resizeImg r img 128 128 Resampling.lanczos))] ∧
    filesIn (runScript r (initFS fmt img)).fs dist_dir =
      [(dist_save_path 16, FileData.image "PNG" (resizeImg r img 16 16 Resampling.lanczos)),
       (dist_save_path 48, FileData.image "PNG" (resizeImg r img 48 48 Resampling.lanczos)),
       (dist_save_path 128, FileData.image "PNG" (resizeImg r img 128 128 Resampling.lanczos))] ∧
    (resizeImg r img 16 16 Resampling.lanczos).width = 16 ∧
    (resizeImg r img 16 16 Resampling.lanczos).height = 16 ∧
    (resizeImg r img 48 48 Resampling.lanczos).width = 48 ∧
    (resizeImg r img 48 48 Resampling.lanczos).height = 48 ∧
    (resizeImg r img 128 128 Resampling.lanczos).width = 128 ∧
    (resizeImg r img 128 128 Resampling.lanczos).height = 128 := by
  rw [runScript_initFS r fmt img]
  simp [filesIn, List.filter, resizeImg, source_path, dest_dir, dist_dir,
    src_save_path_16, src_save_path_48, src_save_path_128,
    dist_save_path_16, dist_save_path_48, dist_save_path_128,
    dirname_src16, dirname_src48, dirname_src128,
    dirname_dist16, dirname_dist48, dirname_dist128, dirname_source]

/-- C2: the loop visits the sizes in the listed ascending order 16, 48, 128;
each iteration resamples the source to a size x size square with the Lanczos
filter and writes that copy first under `dest_dir`, then under `dist_dir`
(visible in the order of the printed lines), overwriting whatever stale
contents previously occupied the six output paths. -/
theorem claim_C2 (r : Resampler) (fmt : String) (img : Img)
    (v1 v2 v3 v4 v5 v6 : FileData) :
    (runScript r (staleFS fmt img v1 v2 v3 v4 v5 v6)).output =
      ["Saved " ++ src_save_path 16, "Saved " ++ dist_save_path 16,
       "Saved " ++ src_save_path 48, "Saved " ++ dist_save_path 48,
       "Saved " ++ src_save_path 128, "Saved " ++ dist_save_path 128] ∧
    (runScript r (staleFS fmt img v1 v2 v3 v4 v5 v6)).fs.files =
      [(source_path, .image fmt img),
       (src_save_path 16, .image "PNG" (resizeImg r img 16 16 Resampling.lanczos)),
       (dist_save_path 16, .image "PNG" (resizeImg r img 16 16 Resampling.lanczos)),
       (src_save_path 48, .image "PNG" (resizeImg r img 48 48 Resampling.lanczos)),
       (dist_save_path 48, .image "PNG" (resizeImg r img 48 48 Resampling.lanczos)),
       (src_save_path 128, .image "PNG" (resizeImg r img 128 128 Resampling.lanczos)),
       (dist_save_path 128, .image "PNG" (resizeImg r img 128 128 Resampling.lanczos))] ∧
    (runScript r (staleFS fmt img v1 v2 v3 v4 v5 v6)).uncaught = none := by
  simp [runScript, prepDirs, ensureDir, pathExists, makedirs, tryBody, imageOpen,
    staleFS, lookupFile, resizeLoop, sizes, save, setFile, containsStr, hasFileAt,
    insertDir, addDirs, source_path, dest_dir, dist_dir,
    src_save_path_16, src_save_path_48, src_save_path_128,
    dist_save_path_16, dist_save_path_48, dist_save_path_128,
    dirname_src16, dirname_src48, dirname_src128,
    dirname_dist16, dirname_dist48, dirname_dist128,
    fmt_src16, fmt_src48, fmt_src128, fmt_dist16, fmt_dist48, fmt_dist128,
    ancestors_dest, ancestors_dist]

/-- C7: running the script a second time on the filesystem a first clean run
produced is idempotent: every output file is overwritten with equivalent
content, the printed lines repeat, and no duplicate or stale file appears
(the final filesystem equals the one after the first run). -/
theorem claim_C7 (r : Resampler) (fmt : String) (img : Img) :
    runScript r ((runScript r (initFS fmt img)).fs) =
      { fs := (runScript r (initFS fmt img)).fs,
        output := (runScript r (initFS fmt img)).output,
        uncaught := none } := by
  rw [runScript_initFS r fmt img]
  simp [runScript, prepDirs, ensureDir, pathExists, makedirs, tryBody, imageOpen,
    lookupFile, resizeLoop, sizes, save, setFile, containsStr, hasFileAt,
    insertDir, addDirs, source_path, dest_dir, dist_dir,
    src_save_path_16, src_save_path_48, src_save_path_128,
    dist_save_path_16, dist_save_path_48, dist_save_path_128,
    dirname_src16, dirname_src48, dirname_src128,
    dirname_dist16, dirname_dist48, dirname_dist128,
    fmt_src16, fmt_src48, fmt_src128, fmt_dist16, fmt_dist48, fmt_dist128,
    ancestors_dest, ancestors_dist]

/-- C8: standard output is line oriented: a fully successful run prints
exactly the six `Saved <path>` lines, and in general, whenever directory
creation is not denied, the output is a block of `Saved <path>` lines
followed by nothing or by exactly one `Error processing image: <message>`
line. -/
theorem claim_C8 :
    (∀ (r : Resampler) (fmt : String) (img : Img),
        (runScript r (initFS fmt img)).output =
          ["Saved " ++ src_save_path 16, "Saved " ++ dist_save_path 16,
           "Saved " ++ src_save_path 48, "Saved " ++ dist_save_path 48,
           "Saved " ++ src_save_path 128, "Saved " ++ dist_save_path 128]) ∧
    (∀ (r : Resampler) (fs : FS),
        containsStr fs.mkdirDenied dest_dir = false →
        containsStr fs.mkdirDenied dist_dir = false →
        ∃ saves tail, (runScript r fs).output = saves ++ tail ∧
          (∀ l ∈ saves, isSavedLine l = true) ∧
          (tail = [] ∨ ∃ e, tail = ["Error processing image: " ++ e])) := by
  constructor
  · intro r fmt img
    rw [runScript_initFS r fmt img]
  · intro r fs h1 h2
    obtain ⟨_, saves, hsv, hcase⟩ := runScript_shape r fs h1 h2
    rcases hcase with ⟨_, hout⟩ | ⟨e, _, hout⟩
    · exact ⟨saves, [], by simp [hout], hsv, Or.inl rfl⟩
    · exact ⟨saves, ["Error processing image: " ++ e], hout, hsv, Or.inr ⟨e, rfl⟩⟩

/-- C10: regardless of the encoded format of the source image, all six
output files are stored in PNG format, the format inferred from the `.png`
extension of every save path. -/
theorem claim_C10 (r : Resampler) (fmt : String) (img : Img) :
    formatFromExt (src_save_path 16) = some "PNG" ∧
    formatFromExt (src_save_path 48) = some "PNG" ∧
    formatFromExt (src_save_path 128) = some "PNG" ∧
    formatFromExt (dist_save_path 16) = some "PNG" ∧
    formatFromExt (dist_save_path 48) = some "PNG" ∧
    formatFromExt (dist_save_path 128) = some "PNG" ∧
    lookupFile (runScript r (initFS fmt img)).fs.files (src_save_path 16) =
      some (FileData.image "PNG" (resizeImg r img 16 16 Resampling.lanczos)) ∧
    lookupFile (runScript r (initFS fmt img)).fs.files (src_save_path 48) =
      some (FileData.image "PNG" (resizeImg r img 48 48 Resampling.lanczos)) ∧
    lookupFile (runScript r (initFS fmt img)).fs.files (src_save_path 128) =
      some (FileData.image "PNG" (resizeImg r img 128 128 Resampling.lanczos)) ∧
    lookupFile (runScript r (initFS fmt img)).fs.files (dist_save_path 16) =
      some (FileData.image "PNG" (resizeImg r img 16 16 Resampling.lanczos)) ∧
    lookupFile (runScript r (initFS fmt img)).fs.files (dist_save_path 48) =
      some (FileData.image "PNG" (resizeImg r img 48 48 Resampling.lanczos)) ∧
    lookupFile (runScript r (initFS fmt img)).fs.files (dist_save_path 128) =
      some (FileData.image "PNG" (resizeImg r img 128 128 Resampling.lanczos)) := by
  rw [runScript_initFS r fmt img]
  refine ⟨formatFromExt_src 16, formatFromExt_src 48, formatFromExt_src 128,
    formatFromExt_dist 16, formatFromExt_dist 48, formatFromExt_dist 128, ?_⟩
  simp [lookupFile, source_path, dest_dir, dist_dir,
    src_save_path_16, src_save_path_48, src_save_path_128,
    dist_save_path_16, dist_save_path_48, dist_save_path_128]

/-- C3 as stated fails on the code: when creating the first destination
directory is permission-denied, the exception is raised outside the
`try` block, nothing is printed, and the process terminates abnormally. -/
theorem claim_C3_counterexample :
    (runScript r0 fsDenied).uncaught ≠ none ∧ (runScript r0 fsDenied).output = [] := by
  decide

/-- C3 (amended): every failure raised inside the `try` block — missing
source file, unreadable or corrupt image, file write failures — is caught at
the top level, at most one `Error processing image:` line is printed, and the
process ends normally; a failure while creating the destination directories,
however, occurs before the `try` block and propagates uncaught, with nothing
printed. -/
theorem claim_C3 :
    (∀ (r : Resampler) (fs : FS),
        containsStr fs.mkdirDenied dest_dir = false →
        containsStr fs.mkdirDenied dist_dir = false →
        (runScript r fs).uncaught = none ∧
        ((runScript r fs).output.filter isErrorLine).length ≤ 1 ∧
        ∀ line ∈ (runScript r fs).output,
          isSavedLine line = true ∨ isErrorLine line = true) ∧
    (∀ (r : Resampler) (fs : FS),
        pathExists fs dest_dir = false →
        containsStr fs.mkdirDenied dest_dir = true →
        (runScript r fs).uncaught = some ("Permission denied: " ++ dest_dir) ∧
        (runScript r fs).output = []) := by
  constructor
  · intro r fs h1 h2
    obtain ⟨hu, saves, hsv, hcase⟩ := runScript_shape r fs h1 h2
    have hfilter : saves.filter isErrorLine = [] := by
      rw [List.filter_eq_nil_iff]
      intro l hl
      rw [savedLine_not_errorLine l (hsv l hl)]
      simp
    rcases hcase with ⟨_, hout⟩ | ⟨e, _, hout⟩
    · refine ⟨hu, ?_, ?_⟩
      · rw [hout, hfilter]
        simp
      · intro line hline
        rw [hout] at hline
        exact Or.inl (hsv line hline)
    · refine ⟨hu, ?_, ?_⟩
      · rw [hout, List.filter_append, hfilter]
        simp [isErrorLine_err e]
      · intro line hline
        rw [hout, List.mem_append] at hline
        rcases hline with hline | hline
        · exact Or.inl (hsv line hline)
        · rw [List.mem_singleton] at hline
          rw [hline]
          exact Or.inr (isErrorLine_err e)
  · intro r fs hpe hmk
    rw [runScript_mkdirFail r fs hpe hmk]
    exact ⟨rfl, rfl⟩

/-- C3 witness: the amended statement instantiated on a concrete clean run
and on the concrete permission-denied run. -/
theorem claim_C3_witness :
    (runScript r0 (initFS "PNG" img0)).uncaught = none ∧
    (runScript r0 fsDenied).uncaught = some ("Permission denied: " ++ dest_dir) :=
  ⟨(claim_C3.1 r0 (initFS "PNG" img0) (by decide) (by decide)).1,
   (claim_C3.2 r0 fsDenied (by decide) (by decide)).1⟩

/-- C4: when no file is at the source path and directory creation is not
denied, the run creates no file anywhere (in particular in neither
destination directory), prints exactly one message that starts with the word
Error, and no exception escapes. -/
theorem claim_C4 (r : Resampler) (fs : FS)
    (h0 : lookupFile fs.files source_path = none)
    (h1 : containsStr fs.mkdirDenied dest_dir = false)
    (h2 : containsStr fs.mkdirDenied dist_dir = false) :
    (runScript r fs).fs.files = fs.files ∧
    (runScript r fs).output =
      ["Error processing image: " ++ ("No such file or directory: " ++ source_path)] ∧
    (∀ line ∈ (runScript r fs).output, "Error".data.isPrefixOf line.data = true) ∧
    (runScript r fs).uncaught = none := by
  obtain ⟨hnone, hfiles, _, _, _, _, _, _, _⟩ := prepDirs_spec fs h1 h2
  have hopen : imageOpen (prepDirs fs).1 source_path =
      Except.error ("No such file or directory: " ++ source_path) := by
    unfold imageOpen
    rw [hfiles, h0]
  rw [runScript_of_prep r fs hnone]
  simp only [tryBody, hopen]
  refine ⟨hfiles, by simp, ?_, trivial⟩
  intro line hline
  simp only [List.nil_append, List.mem_singleton] at hline
  rw [hline]
  decide

/-- C4 witness: the statement instantiated on the empty filesystem. -/
theorem claim_C4_witness :
    (runScript r0 fsEmpty).fs.files = fsEmpty.files ∧
    (runScript r0 fsEmpty).uncaught = none :=
  ⟨(claim_C4 r0 fsEmpty (by decide) (by decide) (by decide)).1,
   (claim_C4 r0 fsEmpty (by decide) (by decide) (by decide)).2.2.2⟩

theorem resizeLoop_last_ok (r : Resampler) (img : Img) (fs : FS) (l : List Nat) (s : Nat)
    (h : (resizeLoop r img fs (l ++ [s])).2.2 = none) :
    lookupFile (resizeLoop r img fs (l ++ [s])).1.files (src_save_path s) =
      some (FileData.image "PNG" (resizeImg r img s s Resampling.lanczos)) ∧
    lookupFile (resizeLoop r img fs (l ++ [s])).1.files (dist_save_path s) =
      some (FileData.image "PNG" (resizeImg r img s s Resampling.lanczos)) := by
  rw [resizeLoop_append r img l [s] fs] at h ⊢
  by_cases hp : (resizeLoop r img fs l).2.2.isSome = true
  · rw [if_pos hp] at h
    rw [h] at hp
    simp at hp
  · rw [if_neg hp] at h ⊢
    exact resizeLoop_single_ok r img (resizeLoop r img fs l).1 s h

/-- C5: a failure in any iteration of the resize-and-save loop aborts all
remaining iterations (running the loop on a failing prefix followed by more
sizes equals running it on the prefix alone), while every iteration that
completed before the failure leaves both of its files on disk with the
resized image. -/
theorem claim_C5 :
    (∀ (r : Resampler) (img : Img) (fs : FS) (l post : List Nat),
        (resizeLoop r img fs l).2.2.isSome = true →
        resizeLoop r img fs (l ++ post) = resizeLoop r img fs l) ∧
    (∀ (r : Resampler) (img : Img) (fs : FS) (pre suf : List Nat) (s : Nat),
        (resizeLoop r img fs (pre ++ [s])).2.2 = none →
        (∀ t ∈ suf, src_save_path t ≠ src_save_path s ∧ dist_save_path t ≠ src_save_path s ∧
            src_save_path t ≠ dist_save_path s ∧ dist_save_path t ≠ dist_save_path s) →
        lookupFile (resizeLoop r img fs (pre ++ s :: suf)).1.files (src_save_path s) =
          some (FileData.image "PNG" (resizeImg r img s s Resampling.lanczos)) ∧
        lookupFile (resizeLoop r img fs (pre ++ s :: suf)).1.files (dist_save_path s) =
          some (FileData.image "PNG" (resizeImg r img s s Resampling.lanczos))) := by
  constructor
  · intro r img fs l post hfail
    rw [resizeLoop_append r img l post fs, if_pos hfail]
  · intro r img fs pre suf s h hpaths
    have hlast := resizeLoop_last_ok r img fs pre s h
    have hsplit : pre ++ s :: suf = (pre ++ [s]) ++ suf := by simp
    rw [hsplit, resizeLoop_append r img (pre ++ [s]) suf fs]
    rw [if_neg (by rw [h]; simp)]
    constructor
    · have hne := resizeLoop_lookup_ne r img suf
        (resizeLoop r img fs (pre ++ [s])).1 (src_save_path s)
        (fun t ht => ⟨fun hh => ((hpaths t ht).1 hh.symm), fun hh => ((hpaths t ht).2.1 hh.symm)⟩)
      exact hne.trans hlast.1
    · have hne := resizeLoop_lookup_ne r img suf
        (resizeLoop r img fs (pre ++ [s])).1 (dist_save_path s)
        (fun t ht => ⟨fun hh => ((hpaths t ht).2.2.1 hh.symm), fun hh => ((hpaths t ht).2.2.2 hh.symm)⟩)
      exact hne.trans hlast.2

/-- C5 witness: on a concrete run whose second iteration fails (the write of
dist icon48.png is denied), appending the remaining size changes nothing,
and the files of the completed first iteration are on disk. -/
theorem claim_C5_witness :
    resizeLoop r0 img0 fsWriteDenied ([16, 48] ++ [128]) =
      resizeLoop r0 img0 fsWriteDenied [16, 48] ∧
    lookupFile (resizeLoop r0 img0 fsWriteDenied ([] ++ 16 :: [48, 128])).1.files
        (src_save_path 16) =
      some (FileData.image "PNG" (resizeImg r0 img0 16 16 Resampling.lanczos)) :=
  ⟨claim_C5.1 r0 img0 fsWriteDenied [16, 48] [128] (by decide),
   (claim_C5.2 r0 img0 fsWriteDenied [] [48, 128] 16 (by decide) (by decide)).1⟩

/-- C6: after the directory-preparation step (provided creation is not
permission-denied and no plain file occupies either directory path), both
destination directories exist; absent directories are created together with
all their missing ancestors; directories already in place are kept, files are
untouched, and when both directories already exist the step does nothing and
raises no error. -/
theorem claim_C6 (fs : FS)
    (h1 : containsStr fs.mkdirDenied dest_dir = false)
    (h2 : containsStr fs.mkdirDenied dist_dir = false)
    (h3 : hasFileAt fs.files dest_dir = false)
    (h4 : hasFileAt fs.files dist_dir = false) :
    (prepDirs fs).2 = none ∧
    dest_dir ∈ (prepDirs fs).1.dirs ∧
    dist_dir ∈ (prepDirs fs).1.dirs ∧
    (dest_dir ∉ fs.dirs → ∀ a ∈ ancestors dest_dir, a ∈ (prepDirs fs).1.dirs) ∧
    (dist_dir ∉ fs.dirs → ∀ a ∈ ancestors dist_dir, a ∈ (prepDirs fs).1.dirs) ∧
    (∀ d ∈ fs.dirs, d ∈ (prepDirs fs).1.dirs) ∧
    (prepDirs fs).1.files = fs.files ∧
    (dest_dir ∈ fs.dirs → dist_dir ∈ fs.dirs → prepDirs fs = (fs, none)) := by
  obtain ⟨ha, hb, _, _, hm, hc, hd, he, hf⟩ := prepDirs_spec fs h1 h2
  exact ⟨ha, hc h3, hd h4, fun hn => he hn h3, fun hn => hf hn h4, hm, hb,
    fun hx hy => prepDirs_noop fs hx hy⟩

/-- C6 witness: the statement instantiated on the empty filesystem. -/
theorem claim_C6_witness :
    (prepDirs fsEmpty).2 = none ∧ dest_dir ∈ (prepDirs fsEmpty).1.dirs :=
  ⟨(claim_C6 fsEmpty (by decide) (by decide) (by decide) (by decide)).1,
   (claim_C6 fsEmpty (by decide) (by decide) (by decide) (by decide)).2.1⟩

/-- C9: directory creation is unconditional and happens before the image is
loaded: for every run in which the two guarded `os.makedirs` calls can
succeed (no denial, no file squatting on the directory paths), both
destination directories exist afterwards, also when the source image is
missing or corrupt and the run only prints an error. -/
theorem claim_C9 (r : Resampler) (fs : FS)
    (h1 : containsStr fs.mkdirDenied dest_dir = false)
    (h2 : containsStr fs.mkdirDenied dist_dir = false)
    (h3 : hasFileAt fs.files dest_dir = false)
    (h4 : hasFileAt fs.files dist_dir = false) :
    dest_dir ∈ (runScript r fs).fs.dirs ∧ dist_dir ∈ (runScript r fs).fs.dirs := by
  obtain ⟨hnone, _, _, _, _, hc, hd, _, _⟩ := prepDirs_spec fs h1 h2
  rw [runScript_of_prep r fs hnone]
  have hdirs := tryBody_state r (prepDirs fs).1
  rcases ht : tryBody r (prepDirs fs).1 with ⟨fsb, outs, err⟩
  rw [ht] at hdirs
  cases err with
  | none => exact ⟨hdirs ▸ hc h3, hdirs ▸ hd h4⟩
  | some e => exact ⟨hdirs ▸ hc h3, hdirs ▸ hd h4⟩

/-- C9 witness: the statement instantiated on the empty filesystem, a run
that fails to open the missing source image yet creates both directories. -/
theorem claim_C9_witness :
    dest_dir ∈ (runScript r0 fsEmpty).fs.dirs ∧ dist_dir ∈ (runScript r0 fsEmpty).fs.dirs :=
  claim_C9 r0 fsEmpty (by decide) (by decide) (by decide) (by decide)

/-- C1 witness: the statement instantiated on a concrete JPEG source image. -/
theorem claim_C1_witness :
    (runScript r0 (initFS "JPEG" img0)).uncaught = none ∧
    (resizeImg r0 img0 16 16 Resampling.lanczos).width = 16 :=
  ⟨(claim_C1 r0 "JPEG" img0).1, (claim_C1 r0 "JPEG" img0).2.2.2.1⟩

/-- C2 witness: the printed order instantiated on a concrete run over stale
blob contents. -/
theorem claim_C2_witness :
    (runScript r0 (staleFS "PNG" img0 (FileData.blob []) (FileData.blob []) (FileData.blob [])
        (FileData.blob []) (FileData.blob []) (FileData.blob []))).output =
      ["Saved " ++ src_save_path 16, "Saved " ++ dist_save_path 16,
       "Saved " ++ src_save_path 48, "Saved " ++ dist_save_path 48,
       "Saved " ++ src_save_path 128, "Saved " ++ dist_save_path 128] :=
  (claim_C2 r0 "PNG" img0 (FileData.blob []) (FileData.blob []) (FileData.blob [])
    (FileData.blob []) (FileData.blob []) (FileData.blob [])).1

/-- C7 witness: idempotence instantiated on a concrete run. -/
theorem claim_C7_witness :
    runScript r0 ((runScript r0 (initFS "PNG" img0)).fs) =
      { fs := (runScript r0 (initFS "PNG" img0)).fs,
        output := (runScript r0 (initFS "PNG" img0)).output,
        uncaught := none } :=
  claim_C7 r0 "PNG" img0

/-- C8 witness: the output characterisations instantiated on a concrete
successful run and on a concrete failing run. -/
theorem claim_C8_witness :
    (runScript r0 (initFS "PNG" img0)).output =
      ["Saved " ++ src_save_path 16, "Saved " ++ dist_save_path 16,
       "Saved " ++ src_save_path 48, "Saved " ++ dist_save_path 48,
       "Saved " ++ src_save_path 128, "Saved " ++ dist_save_path 128] ∧
    (∃ saves tail, (runScript r0 fsEmpty).output = saves ++ tail ∧
      (∀ l ∈ saves, isSavedLine l = true) ∧
      (tail = [] ∨ ∃ e, tail = ["Error processing image: " ++ e])) :=
  ⟨claim_C8.1 r0 "PNG" img0, claim_C8.2 r0 fsEmpty (by decide) (by decide)⟩

/-- C10 witness: PNG output formats instantiated on a concrete GIF-format
source image. -/
theorem claim_C10_witness :
    formatFromExt (src_save_path 16) = some "PNG" ∧
    lookupFile (runScript r0 (initFS "GIF" img0)).fs.files (dist_save_path 128) =
      some (FileData.image "PNG" (resizeImg r0 img0 128 128 Resampling.lanczos)) :=
  ⟨(claim_C10 r0 "GIF" img0).1, (claim_C10 r0 "GIF" img0).2.2.2.2.2.2.2.2.2.2.2⟩
